import Mathlib

/-!
Verification development for the FalconDefender detection-and-containment
engine.  The Python core (rule compiler/store, eligibility filter, scan
coordinator, containment store, TUI control adapter) is shallowly embedded
as executable Lean definitions; file systems and the quarantine database are
modelled as association lists, timestamps as naturals, and the MD5 digest as
an injective constructor applied to the exact byte stream the code feeds to
the hasher.
-/

namespace Falcon

/-! ### Association lists keyed by strings

Used both for the file system (path to file content) and for the
incremental-scan cache (path to last-scanned modification time). -/

def alist_get {α : Type} : List (String × α) → String → Option α
  | [], _ => none
  | e :: t, p => if e.1 = p then some e.2 else alist_get t p

def alist_remove {α : Type} : List (String × α) → String → List (String × α)
  | [], _ => []
  | e :: t, p => if e.1 = p then alist_remove t p else e :: alist_remove t p

def alist_set {α : Type} (l : List (String × α)) (p : String) (v : α) : List (String × α) :=
  (p, v) :: alist_remove l p

theorem alist_get_remove_self {α : Type} (l : List (String × α)) (p : String) :
    alist_get (alist_remove l p) p = none := by
  induction l with
  | nil => rfl
  | cons e t ih =>
    by_cases h : e.1 = p
    · simp only [alist_remove, if_pos h]
      exact ih
    · simp only [alist_remove, if_neg h, alist_get]
      exact ih

theorem alist_get_remove_ne {α : Type} (l : List (String × α)) (p q : String) (h : p ≠ q) :
    alist_get (alist_remove l q) p = alist_get l p := by
  induction l with
  | nil => rfl
  | cons e t ih =>
    by_cases he : e.1 = q
    · have hep : e.1 ≠ p := fun hc => h (hc.symm.trans he)
      simp only [alist_remove, if_pos he, alist_get, if_neg hep]
      exact ih
    · by_cases hep : e.1 = p
      · simp only [alist_remove, if_neg he, alist_get, if_pos hep]
      · simp only [alist_remove, if_neg he, alist_get, if_neg hep]
        exact ih

theorem alist_get_set_self {α : Type} (l : List (String × α)) (p : String) (v : α) :
    alist_get (alist_set l p v) p = some v := by
  simp [alist_set, alist_get]

theorem alist_get_set_ne {α : Type} (l : List (String × α)) (p q : String) (v : α)
    (h : p ≠ q) :
    alist_get (alist_set l q v) p = alist_get l p := by
  have hq : q ≠ p := fun hc => h hc.symm
  simp only [alist_set, alist_get, hq, if_false]
  exact alist_get_remove_ne l p q h

/-! ### Containment store (src/falcon/quarantine.py)

The file system is an association list from paths to contents; the SQLite
table `quarantine_files` is a list of records with autoincrement ids;
timestamps are naturals supplied by the caller. -/

structure QRecord where
  id : Nat
  original_path : String
  quarantine_path : String
  restored_at : Option Nat
  deleted_at : Option Nat
deriving DecidableEq

structure QState where
  fs : List (String × String)
  db : List QRecord
  next_id : Nat
deriving DecidableEq

/-- Embeds `QuarantineManager.quarantine_file` (nominal path): if the file is
missing the call fails; otherwise the file is moved to the generated
quarantine path and a fresh record with null `restored_at`/`deleted_at` is
inserted.  The timestamp-suffixed storage name is passed in as `qpath`. -/
def quarantine_file (s : QState) (path qpath : String) : Option Nat × QState :=
  match alist_get s.fs path with
  | none => (none, s)
  | some content =>
    let fs1 := alist_set (alist_remove s.fs path) qpath content
    let r : QRecord := ⟨s.next_id, path, qpath, none, none⟩
    (some s.next_id, ⟨fs1, s.db ++ [r], s.next_id + 1⟩)

/-- Embeds `QuarantineManager.restore_file`.  The SQL lookup is
`WHERE id = ? AND restored_at IS NULL` — it does not inspect `deleted_at`.
Fails when the quarantine file is absent on disk or the original path is
occupied; on success moves the file back and sets `restored_at`. -/
def restore_file (s : QState) (record_id t : Nat) : Bool × QState :=
  match s.db.find? (fun r => r.id == record_id && r.restored_at.isNone) with
  | none => (false, s)
  | some r =>
    match alist_get s.fs r.quarantine_path with
    | none => (false, s)
    | some content =>
      if (alist_get s.fs r.original_path).isSome then (false, s)
      else
        let fs1 := alist_set (alist_remove s.fs r.quarantine_path) r.original_path content
        let db1 := s.db.map (fun x => if x.id == record_id then
          { x with restored_at := some t } else x)
        (true, ⟨fs1, db1, s.next_id⟩)

/-- Embeds `QuarantineManager.delete_quarantined_file`.  The SQL lookup is
`WHERE id = ? AND deleted_at IS NULL` — it does not inspect `restored_at`.
A quarantine file already absent from disk is tolerated (warning only); the
record is finalized as deleted either way. -/
def delete_quarantined_file (s : QState) (record_id t : Nat) : Bool × QState :=
  match s.db.find? (fun r => r.id == record_id && r.deleted_at.isNone) with
  | none => (false, s)
  | some r =>
    let fs1 := if (alist_get s.fs r.quarantine_path).isSome then
      alist_remove s.fs r.quarantine_path else s.fs
    let db1 := s.db.map (fun x => if x.id == record_id then
      { x with deleted_at := some t } else x)
    (true, ⟨fs1, db1, s.next_id⟩)

/-- Embeds `QuarantineManager.list_quarantined_files`: only records with both
timestamps null are listed. -/
def list_quarantined_files (s : QState) : List QRecord :=
  s.db.filter (fun r => r.restored_at.isNone && r.deleted_at.isNone)

/-! ### Rule compiler/store (src/falcon/yara_manager.py)

A rules directory is the list of its files in `rglob` traversal order; each
file carries its name, its content and whether it is syntactically valid
YARA.  The MD5 digest is modelled as a constructor applied to the exact byte
stream fed to the hasher, and the empty-string sentinel returned when no
`*.yar` file exists is the `noRules` constructor. -/

structure RuleFile where
  name : String
  content : String
  valid : Bool
deriving DecidableEq

/-- Suffix test on the character data (computable by the kernel; the core
`String.endsWith` is a well-founded loop that does not reduce). -/
def str_ends_with (s suffix : String) : Bool :=
  List.isSuffixOf suffix.data s.data

def str_starts_with (s pre : String) : Bool :=
  List.isPrefixOf pre.data s.data

def str_to_lower (s : String) : String :=
  ⟨s.data.map Char.toLower⟩

def is_yar (f : RuleFile) : Bool := str_ends_with f.name ".yar"

def is_yara_ext (f : RuleFile) : Bool := str_ends_with f.name ".yara"

inductive Fingerprint where
  | noRules : Fingerprint
  | md5 (stream : String) : Fingerprint
deriving DecidableEq

/-- Lexicographic code-point comparison, as Python compares path strings. -/
def chars_lt : List Char → List Char → Bool
  | [], [] => false
  | [], _ :: _ => true
  | _ :: _, [] => false
  | a :: as, b :: bs =>
    if a.toNat < b.toNat then true
    else if b.toNat < a.toNat then false
    else chars_lt as bs

def str_lt (a b : String) : Bool := chars_lt a.data b.data

def insert_by_name (f : RuleFile) : List RuleFile → List RuleFile
  | [] => [f]
  | g :: gs => if str_lt f.name g.name then f :: g :: gs else g :: insert_by_name f gs

/-- The `sorted(...)` call on lists of paths: sort by filename. -/
def sort_by_name : List RuleFile → List RuleFile
  | [] => []
  | f :: fs => insert_by_name f (sort_by_name fs)

/-- Embeds `YaraManager._calculate_rules_checksum`.  Mirroring the source: it
collects the `*.yar` and `*.yara` files, computes their sorted union into a
variable it never reads again, then returns the sentinel whenever there is no
`*.yar` file and otherwise hashes only the `*.yar` files in traversal
(`rglob`) order. -/
def calculate_rules_checksum (dir : List RuleFile) : Fingerprint :=
  let yar_files := dir.filter is_yar
  let yara_files := dir.filter is_yara_ext
  let _all_rule_files := sort_by_name (yar_files ++ yara_files)
  if yar_files.isEmpty then Fingerprint.noRules
  else Fingerprint.md5 (String.join (yar_files.map RuleFile.content))

/-- The fingerprint operation as section 4.1 of the specification words it
(for refinement comparison only): a deterministic digest over the
sorted-by-filename contents of all recognized rule source files, with both
recognized extensions contributing, and the sentinel exactly when there are
no rule source files at all. -/
def fingerprint_spec (dir : List RuleFile) : Fingerprint :=
  let rule_files := sort_by_name (dir.filter (fun f => is_yar f || is_yara_ext f))
  if rule_files.isEmpty then Fingerprint.noRules
  else Fingerprint.md5 (String.join (rule_files.map RuleFile.content))

/-- The compiled, matchable artifact: identified by the sources it was
compiled from. -/
structure RuleSet where
  sources : List RuleFile
deriving DecidableEq

/-- Embeds `YaraManager._compile_rules`: both `*.yar` and `*.yara` files,
sorted by filename; no files means no rule set; any invalid file aborts the
whole compilation (fail closed). -/
def compile_rules (dir : List RuleFile) : Option RuleSet :=
  let rule_file_paths := sort_by_name (dir.filter (fun f => is_yar f || is_yara_ext f))
  if rule_file_paths.isEmpty then none
  else if rule_file_paths.all RuleFile.valid then some ⟨rule_file_paths⟩
  else none

structure YaraState where
  rules : Option RuleSet
  rules_checksum : Option Fingerprint
deriving DecidableEq

/-- Embeds `YaraManager.load_rules` with `force_recompile=True` (the branch
taken by `check_for_updates_and_reload`): recompile; on success store the
rule set with the current checksum, on failure clear both. -/
def load_rules_force (dir : List RuleFile) : YaraState :=
  let current_checksum := calculate_rules_checksum dir
  match compile_rules dir with
  | some compiled => ⟨some compiled, some current_checksum⟩
  | none => ⟨none, none⟩

/-- Embeds `YaraManager.check_for_updates_and_reload`: recompute the
checksum, and if it differs from the stored one, force a reload and report
that a reload occurred. -/
def check_for_updates_and_reload (y : YaraState) (dir : List RuleFile) :
    YaraState × Bool :=
  let new_checksum := calculate_rules_checksum dir
  if some new_checksum ≠ y.rules_checksum then (load_rules_force dir, true)
  else (y, false)

/-- The rule-set handle a `Scanner` matches files against.  `Scanner.__init__`
runs `self.rules = self.yara_manager.get_rules()` once, at construction, and
`_scan_file` only ever reads `self.rules`. -/
structure ScannerState where
  rules : Option RuleSet
deriving DecidableEq

def scanner_init (y : YaraState) : ScannerState := ⟨y.rules⟩

/-! ### Eligibility filter (src/falcon/scanner.py, `_is_file_scannable`)

A candidate file is modelled by the attributes the filter reads: path,
extension (`pathlib`'s `.suffix`), regular-file and readability flags, and
byte size.  The size comparison `size / (1024*1024) > max_file_size_mb` is
taken over the rationals. -/

structure ScanConfig where
  max_file_size_mb : Nat
  allowed_extensions : List String
  blocked_extensions : List String
deriving DecidableEq

structure ScanTarget where
  path : String
  suffix : String
  is_regular_file : Bool
  readable : Bool
  size_bytes : Nat
deriving DecidableEq

def system_paths : List String := ["/proc", "/sys", "/dev"]

/-- Embeds `Scanner._is_file_scannable`, preserving the evaluation order of
the source: regular/readable, size ceiling, allow-list (lower-cased
extension), block-list (lower-cased extension), raw-suffix check for ".yar"
and ".yarac", system-path prefixes.  The configured ceiling is an integer
number of megabytes, so the source's `size / (1024*1024) >
max_file_size_mb` over the rationals is exactly `size_bytes >
max_file_size_mb * 1024 * 1024`. -/
def is_file_scannable (cfg : ScanConfig) (t : ScanTarget) : Bool :=
  if !t.is_regular_file then false
  else if !t.readable then false
  else if t.size_bytes > cfg.max_file_size_mb * 1024 * 1024 then false
  else if !cfg.allowed_extensions.isEmpty
      && !(cfg.allowed_extensions.contains (str_to_lower t.suffix)) then false
  else if !cfg.blocked_extensions.isEmpty
      && cfg.blocked_extensions.contains (str_to_lower t.suffix) then false
  else if t.suffix == ".yar" || t.suffix == ".yarac" then false
  else if system_paths.any (fun p => str_starts_with t.path p) then false
  else true

/-- The rule-source extensions recognized by `YaraManager._compile_rules`
(and intended for `_calculate_rules_checksum`): the `rglob` patterns
`*.yar` and `*.yara`. -/
def rule_source_extensions : List String := [".yar", ".yara"]

/-! ### Scan coordinator (src/falcon/scanner.py, `scan_path` and `_scan_file`)

A directory walk yields a list of world files; each carries the attributes
the coordinator reads: the eligibility-filter view of the file, its
modification time at walk time, whether it still exists when the session
ends and its modification time then (a quarantined file has been moved
away), and the outcome `yara` matching would have on it (a list of matched
rule names, or an exception message). -/

inductive MatchOutcome where
  | ok (found : List String) : MatchOutcome
  | err (msg : String) : MatchOutcome
deriving DecidableEq

structure WorldFile where
  target : ScanTarget
  mtime : Nat
  mtime_end : Nat
  exists_at_end : Bool
  outcome : MatchOutcome
deriving DecidableEq

/-- The incremental cache `Scanner.last_scan_times`: path to last-scanned
modification time. -/
abbrev Cache := List (String × Nat)

/-- Embeds `Scanner._scan_file` at the level the claims need: the eligibility
filter runs inside the worker; with no loaded rules the file is skipped with
a warning; a matching exception is caught and logged, yielding no matches. -/
def scan_file (cfg : ScanConfig) (rules : Option RuleSet) (f : WorldFile) :
    List String :=
  if !is_file_scannable cfg f.target then []
  else
    match rules with
    | none => []
    | some _ =>
      match f.outcome with
      | MatchOutcome.ok ms => ms
      | MatchOutcome.err _ => []

/-- The walk-time keep test in `Scanner.scan_path`: a discovered file is
dropped exactly when `incremental` is set, the cache has an entry for its
exact path, and its modification time is at most that entry. -/
def inc_keep (cache : Cache) (incremental : Bool) (f : WorldFile) : Bool :=
  !(incremental &&
    (match alist_get cache f.target.path with
     | some last => decide (f.mtime ≤ last)
     | none => false))

/-- The directory-walk selection in `Scanner.scan_path`. -/
def files_to_scan (cache : Cache) (incremental : Bool) (walk : List WorldFile) :
    List WorldFile :=
  walk.filter (inc_keep cache incremental)

/-- The end-of-session cache refresh in `Scanner.scan_path`: for every file
in `files_to_scan`, in order, if it still exists on disk its entry becomes
its current modification time. -/
def update_cache : List WorldFile → Cache → Cache
  | [], c => c
  | f :: fs, c =>
    update_cache fs
      (if f.exists_at_end then alist_set c f.target.path f.mtime_end else c)

/-- The dictionary `Scanner.scan_path` returns: scanned path, number of
files submitted to workers, and the flattened match list.  The source
attaches no per-file error information to it. -/
structure ScanSummary where
  scanned_path : String
  total_files_scanned : Nat
  matches_found : List String
deriving DecidableEq

/-- Embeds `Scanner.scan_path` for a directory target: select the files,
submit each to a worker (`_scan_file`), count every future, concatenate all
matches, and refresh the incremental cache only when `incremental` is set. -/
def scan_path (cfg : ScanConfig) (rules : Option RuleSet) (root : String)
    (walk : List WorldFile) (cache : Cache) (incremental : Bool) :
    ScanSummary × Cache :=
  let fts := files_to_scan cache incremental walk
  let all_matches := (fts.map (scan_file cfg rules)).flatten
  let new_cache := if incremental then update_cache fts cache else cache
  (⟨root, fts.length, all_matches⟩, new_cache)

/-! ### Progress/control adapter (src/falcon/tui_integration.py,
`ScannerAdapter`)

The adapter's observable surface for the pause/resume claims: its state and
the events it appends to the queue. -/

inductive ScanState where
  | idle | scanning | paused | updating | error
deriving DecidableEq

inductive EventKind where
  | info | errorEvent | matchEvent | progress | done
deriving DecidableEq

structure Event where
  kind : EventKind
  msg : String
deriving DecidableEq

structure AdapterState where
  state : ScanState
  events : List Event
deriving DecidableEq

/-- Embeds `ScannerAdapter.pause`: only when the state is `Scanning` does it
move to `Paused` and emit an info event; the method body has no other
branch. -/
def adapter_pause (a : AdapterState) : AdapterState :=
  if a.state = ScanState.scanning then
    ⟨ScanState.paused, a.events ++ [⟨EventKind.info, "Scan paused"⟩]⟩
  else a

/-- Embeds `ScannerAdapter.resume`: only when the state is `Paused` does it
move to `Scanning` and emit an info event; the method body has no other
branch. -/
def adapter_resume (a : AdapterState) : AdapterState :=
  if a.state = ScanState.paused then
    ⟨ScanState.scanning, a.events ++ [⟨EventKind.info, "Scan resumed"⟩]⟩
  else a

/-! ### Claim C1: terminal quarantine records -/

def c1_state0 : QState := ⟨[("/home/u/mal.bin", "MALWARE")], [], 1⟩

def c1_state1 : QState := (quarantine_file c1_state0 "/home/u/mal.bin" "/quar/mal.bin_t1").2

def c1_state2 : QState := (restore_file c1_state1 1 10).2

/-- C1 fails as stated: after quarantining a file and successfully restoring
it, `delete(id)` on the same record succeeds (its lookup only checks
`deleted_at IS NULL`) and leaves a record with both `restored_at` and
`deleted_at` set, instead of failing. -/
theorem c1_counterexample :
    (restore_file c1_state1 1 10).1 = true ∧
    (delete_quarantined_file c1_state2 1 20).1 = true ∧
    (delete_quarantined_file c1_state2 1 20).2.db =
      [⟨1, "/home/u/mal.bin", "/quar/mal.bin_t1", some 10, some 20⟩] := by
  decide

/-- C1 (amended): each transition is guarded only by its own column —
`restore(id)` fails (returning false and leaving the state unchanged) once
the record's restored-at is set, and `delete(id)` fails once its deleted-at
is set; but neither transition checks the other column, so a restored record
can still be deleted, setting both timestamps. -/
theorem c1_transition_guards (s : QState) (i t : Nat) :
    ((∀ r ∈ s.db, r.id = i → r.restored_at ≠ none) →
      restore_file s i t = (false, s)) ∧
    ((∀ r ∈ s.db, r.id = i → r.deleted_at ≠ none) →
      delete_quarantined_file s i t = (false, s)) := by
  constructor
  · intro h
    have hfind : s.db.find? (fun r => r.id == i && r.restored_at.isNone) = none := by
      rw [List.find?_eq_none]
      intro r hr
      simp only [Bool.and_eq_true, beq_iff_eq, Option.isNone_iff_eq_none, not_and]
      exact fun hid hnone => h r hr hid hnone
    simp [restore_file, hfind]
  · intro h
    have hfind : s.db.find? (fun r => r.id == i && r.deleted_at.isNone) = none := by
      rw [List.find?_eq_none]
      intro r hr
      simp only [Bool.and_eq_true, beq_iff_eq, Option.isNone_iff_eq_none, not_and]
      exact fun hid hnone => h r hr hid hnone
    simp [delete_quarantined_file, hfind]

def c1_wit_state : QState := ⟨[], [⟨1, "/a", "/q/a_1", some 3, some 4⟩], 2⟩

/-- Witness for the amended C1 at a record whose timestamps are both set. -/
theorem c1_transition_guards_witness :
    restore_file c1_wit_state 1 9 = (false, c1_wit_state) ∧
    delete_quarantined_file c1_wit_state 1 9 = (false, c1_wit_state) :=
  ⟨(c1_transition_guards c1_wit_state 1 9).1 (by decide),
   (c1_transition_guards c1_wit_state 1 9).2 (by decide)⟩

/-! ### Claim C8: quarantine/restore round trip -/

/-- C8: quarantining a file and then restoring the resulting record (with
the original path left unoccupied, as it is after the move) succeeds, puts
the identical content back at the original path, and leaves no file at the
quarantine storage path. -/
theorem c8_round_trip (s : QState) (p q c : String) (t : Nat)
    (hp : alist_get s.fs p = some c) (hpq : p ≠ q)
    (hid : ∀ r ∈ s.db, r.id < s.next_id) :
    (restore_file (quarantine_file s p q).2 s.next_id t).1 = true ∧
    alist_get (restore_file (quarantine_file s p q).2 s.next_id t).2.fs p = some c ∧
    alist_get (restore_file (quarantine_file s p q).2 s.next_id t).2.fs q = none := by
  have hq : (quarantine_file s p q).2 =
      ⟨alist_set (alist_remove s.fs p) q c,
       s.db ++ [⟨s.next_id, p, q, none, none⟩], s.next_id + 1⟩ := by
    simp [quarantine_file, hp]
  rw [hq]
  have hfind : (s.db ++ [(⟨s.next_id, p, q, none, none⟩ : QRecord)]).find?
      (fun r => r.id == s.next_id && r.restored_at.isNone) =
      some ⟨s.next_id, p, q, none, none⟩ := by
    rw [List.find?_append]
    have h1 : s.db.find? (fun r => r.id == s.next_id && r.restored_at.isNone) = none := by
      rw [List.find?_eq_none]
      intro r hr
      simp only [Bool.and_eq_true, beq_iff_eq, not_and]
      intro hidr
      exact absurd hidr (Nat.ne_of_lt (hid r hr))
    simp [h1, List.find?]
  have hgq : alist_get (alist_set (alist_remove s.fs p) q c) q = some c :=
    alist_get_set_self _ _ _
  have hgp : alist_get (alist_set (alist_remove s.fs p) q c) p = none := by
    rw [alist_get_set_ne _ _ _ _ hpq]
    exact alist_get_remove_self _ _
  simp only [restore_file, hfind, hgq, hgp, Option.isSome_none, Bool.false_eq_true,
    if_false]
  refine ⟨trivial, ?_, ?_⟩
  · exact alist_get_set_self _ _ _
  · rw [alist_get_set_ne _ _ _ _ (fun hc => hpq hc.symm)]
    exact alist_get_remove_self _ _

def c8_wit_state : QState := ⟨[("/home/doc.txt", "BYTES")], [], 1⟩

/-- Witness for C8 on a one-file file system. -/
theorem c8_round_trip_witness :
    (restore_file (quarantine_file c8_wit_state "/home/doc.txt" "/q/doc.txt_1").2 1 7).1
      = true ∧
    alist_get
      (restore_file (quarantine_file c8_wit_state "/home/doc.txt" "/q/doc.txt_1").2 1 7).2.fs
      "/home/doc.txt" = some "BYTES" ∧
    alist_get
      (restore_file (quarantine_file c8_wit_state "/home/doc.txt" "/q/doc.txt_1").2 1 7).2.fs
      "/q/doc.txt_1" = none :=
  c8_round_trip c8_wit_state "/home/doc.txt" "/q/doc.txt_1" "BYTES" 7
    (by decide) (by decide) (by decide)

/-! ### Claim C2: rules fingerprint -/

def c2_yara_only_dir : List RuleFile := [⟨"a.yara", "rule A condition true", true⟩]

def c2_fwd_dir : List RuleFile :=
  [⟨"b.yar", "CONTENT-B", true⟩, ⟨"a.yar", "CONTENT-A", true⟩]

def c2_rev_dir : List RuleFile :=
  [⟨"a.yar", "CONTENT-A", true⟩, ⟨"b.yar", "CONTENT-B", true⟩]

/-- C2 fails on the code: `_calculate_rules_checksum` hashes only the
`*.yar` files, in directory-traversal order (its sorted list of both
extensions is computed but never used).  A directory holding one `*.yara`
rule source yields the "no rules" sentinel even though the spec fingerprint
digests it, and the same pair of `*.yar` files enumerated in two different
traversal orders yields two different digests while the spec fingerprint is
order-independent. -/
theorem c2_checksum_divergence :
    calculate_rules_checksum c2_yara_only_dir = Fingerprint.noRules ∧
    fingerprint_spec c2_yara_only_dir = Fingerprint.md5 "rule A condition true" ∧
    calculate_rules_checksum c2_fwd_dir ≠ calculate_rules_checksum c2_rev_dir ∧
    fingerprint_spec c2_fwd_dir = fingerprint_spec c2_rev_dir := by
  decide

/-! ### Claim C6: matching against the currently active rule set -/

def c6_dir0 : List RuleFile := [⟨"a.yar", "rule one condition true", true⟩]

def c6_dir1 : List RuleFile := [⟨"a.yar", "rule two condition true", true⟩]

def c6_yara0 : YaraState := load_rules_force c6_dir0

/-- C6 fails on the code: `Scanner.__init__` copies
`yara_manager.get_rules()` into `self.rules` once, and `_scan_file` matches
against that copy.  After the rule source changes and
`check_for_updates_and_reload` returns true having swapped the manager's
active rule set, the scanner's matching handle is still the rule set that
was active at construction, not the newly active one. -/
theorem c6_scanner_stale_rules :
    (check_for_updates_and_reload c6_yara0 c6_dir1).2 = true ∧
    (check_for_updates_and_reload c6_yara0 c6_dir1).1.rules =
      some ⟨[⟨"a.yar", "rule two condition true", true⟩]⟩ ∧
    (scanner_init c6_yara0).rules =
      some ⟨[⟨"a.yar", "rule one condition true", true⟩]⟩ ∧
    (scanner_init c6_yara0).rules ≠
      (check_for_updates_and_reload c6_yara0 c6_dir1).1.rules := by
  decide

/-! ### Claim C4: rule-source extensions in the eligibility filter -/

def c4_cfg : ScanConfig := ⟨10, [], []⟩

def c4_target : ScanTarget := ⟨"/tmp/evil.yara", ".yara", true, true, 100⟩

/-- C4 fails as stated: step 5 of `_is_file_scannable` tests the raw suffix
against ".yar" and ".yarac" only, while the recognized rule-source
extensions (the `rglob` patterns of `_compile_rules`) are ".yar" and
".yara".  A file with the recognized rule-source extension ".yara" is
accepted by the filter. -/
theorem c4_counterexample :
    c4_target.suffix ∈ rule_source_extensions ∧
    is_file_scannable c4_cfg c4_target = true := by
  decide

/-- C4 (amended): the filter's rule-file step always rejects a candidate
whose extension is ".yar" or ".yarac" (rule source and compiled artifact);
the second recognized rule-source extension ".yara" is not covered by it. -/
theorem c4_rejects_yar_yarac (cfg : ScanConfig) (t : ScanTarget)
    (h : t.suffix = ".yar" ∨ t.suffix = ".yarac") :
    is_file_scannable cfg t = false := by
  rcases h with h | h <;> simp [is_file_scannable, h]

def c4_wit_target : ScanTarget := ⟨"/tmp/rule.yar", ".yar", true, true, 100⟩

/-- Witness for the amended C4: a ".yar" file is rejected even under an
empty allow/block configuration. -/
theorem c4_rejects_yar_yarac_witness :
    is_file_scannable c4_cfg c4_wit_target = false :=
  c4_rejects_yar_yarac c4_cfg c4_wit_target (Or.inl rfl)

/-! ### Claim C10: extension in both allow-list and block-list -/

/-- C10: with the (lower-cased) extension present in the allow-list and in
the block-list, the allow-list step passes and the block-list step rejects,
so the candidate is rejected. -/
theorem c10_block_wins (cfg : ScanConfig) (t : ScanTarget)
    (ha : str_to_lower t.suffix ∈ cfg.allowed_extensions)
    (hb : str_to_lower t.suffix ∈ cfg.blocked_extensions) :
    is_file_scannable cfg t = false := by
  have ha' : cfg.allowed_extensions.contains (str_to_lower t.suffix) = true :=
    List.elem_eq_true_of_mem ha
  have hb' : cfg.blocked_extensions.contains (str_to_lower t.suffix) = true :=
    List.elem_eq_true_of_mem hb
  have hbe : cfg.blocked_extensions.isEmpty = false := by
    cases hl : cfg.blocked_extensions with
    | nil => rw [hl] at hb; cases hb
    | cons x xs => rfl
  simp only [is_file_scannable, Bool.not_eq_true]
  simp [hbe]
  intro _ _ _ _ hnb _ _
  exact absurd hb hnb

def c10_cfg : ScanConfig := ⟨10, [".exe", ".dll"], [".exe"]⟩

def c10_target : ScanTarget := ⟨"/tmp/a.EXE", ".EXE", true, true, 100⟩

/-- Witness for C10: ".EXE" lower-cases to ".exe", which is allowed and
blocked; the file is rejected. -/
theorem c10_block_wins_witness :
    is_file_scannable c10_cfg c10_target = false :=
  c10_block_wins c10_cfg c10_target (by decide) (by decide)

/-! ### Claim C5: pause and resume validity -/

def c5_idle_adapter : AdapterState := ⟨ScanState.idle, []⟩

/-- C5 fails as stated: `ScannerAdapter.pause` called while idle neither
changes state nor emits any event — in particular no error event — and
`resume` likewise; the invalid calls are silently ignored, not reported. -/
theorem c5_counterexample :
    adapter_pause c5_idle_adapter = c5_idle_adapter ∧
    (adapter_pause c5_idle_adapter).events = [] ∧
    adapter_resume c5_idle_adapter = c5_idle_adapter ∧
    (adapter_resume c5_idle_adapter).events = [] := by
  decide

/-- C5 (amended): `pause()` transitions only from `Scanning` (to `Paused`,
emitting one info event) and `resume()` only from `Paused` (back to
`Scanning`); in every other state the call leaves the adapter completely
unchanged — a silent no-op with no event emitted, not a reported error. -/
theorem c5_pause_resume_silent (a : AdapterState) :
    (a.state = ScanState.scanning →
      adapter_pause a =
        ⟨ScanState.paused, a.events ++ [⟨EventKind.info, "Scan paused"⟩]⟩) ∧
    (a.state ≠ ScanState.scanning → adapter_pause a = a) ∧
    (a.state = ScanState.paused →
      adapter_resume a =
        ⟨ScanState.scanning, a.events ++ [⟨EventKind.info, "Scan resumed"⟩]⟩) ∧
    (a.state ≠ ScanState.paused → adapter_resume a = a) := by
  refine ⟨fun h => ?_, fun h => ?_, fun h => ?_, fun h => ?_⟩ <;>
    simp [adapter_pause, adapter_resume, h]

def c5_scanning_adapter : AdapterState := ⟨ScanState.scanning, []⟩

/-- Witness for the amended C5 at a scanning adapter and an idle one. -/
theorem c5_pause_resume_silent_witness :
    adapter_pause c5_scanning_adapter =
      ⟨ScanState.paused, [⟨EventKind.info, "Scan paused"⟩]⟩ ∧
    adapter_resume c5_idle_adapter = c5_idle_adapter :=
  ⟨(c5_pause_resume_silent c5_scanning_adapter).1 rfl,
   (c5_pause_resume_silent c5_idle_adapter).2.2.2 (by decide)⟩

/-! ### Claim C9: incremental skipping at enumeration -/

/-- C9: with `incremental=true`, a walk-discovered file whose modification
time is at most its cache entry is excluded from the considered set, and a
file whose path has no cache entry is always kept. -/
theorem c9_incremental_skip (cache : Cache) (walk : List WorldFile) (f : WorldFile)
    (hf : f ∈ walk) :
    ((∃ last, alist_get cache f.target.path = some last ∧ f.mtime ≤ last) →
      f ∉ files_to_scan cache true walk) ∧
    (alist_get cache f.target.path = none → f ∈ files_to_scan cache true walk) := by
  constructor
  · rintro ⟨last, hl, hle⟩ hmem
    have hkeep := (List.mem_filter.mp hmem).2
    simp [inc_keep, hl, hle] at hkeep
  · intro hnone
    exact List.mem_filter.mpr ⟨hf, by simp [inc_keep, hnone]⟩

def c9_old_file : WorldFile :=
  ⟨⟨"/data/a.txt", ".txt", true, true, 10⟩, 5, 5, true, MatchOutcome.ok []⟩

def c9_new_file : WorldFile :=
  ⟨⟨"/data/b.txt", ".txt", true, true, 10⟩, 5, 5, true, MatchOutcome.ok []⟩

def c9_cache : Cache := [("/data/a.txt", 5)]

def c9_walk : List WorldFile := [c9_old_file, c9_new_file]

/-- Witness for C9: the cached unmodified file is skipped, the never-seen
file is kept. -/
theorem c9_incremental_skip_witness :
    c9_old_file ∉ files_to_scan c9_cache true c9_walk ∧
    c9_new_file ∈ files_to_scan c9_cache true c9_walk :=
  ⟨(c9_incremental_skip c9_cache c9_walk c9_old_file (by decide)).1
      ⟨5, by decide, by decide⟩,
   (c9_incremental_skip c9_cache c9_walk c9_new_file (by decide)).2 (by decide)⟩

/-! ### Claim C3: end-of-session incremental-cache refresh -/

theorem update_cache_no_hit : ∀ (fs : List WorldFile) (c : Cache) (p : String),
    (∀ f ∈ fs, f.target.path = p → f.exists_at_end = false) →
    alist_get (update_cache fs c) p = alist_get c p
  | [], _, _, _ => rfl
  | f :: t, c, p, h => by
    have ht : ∀ g ∈ t, g.target.path = p → g.exists_at_end = false :=
      fun g hg => h g (List.mem_cons_of_mem f hg)
    simp only [update_cache]
    by_cases he : f.exists_at_end = true
    · have hne : p ≠ f.target.path := by
        intro hc
        have := h f (List.mem_cons_self f t) hc.symm
        rw [he] at this
        cases this
      rw [if_pos he, update_cache_no_hit t _ p ht]
      exact alist_get_set_ne c p f.target.path f.mtime_end hne
    · rw [if_neg he]
      exact update_cache_no_hit t c p ht

theorem update_cache_hit : ∀ (fs : List WorldFile) (c : Cache) (f : WorldFile),
    (fs.map (fun g => g.target.path)).Nodup → f ∈ fs → f.exists_at_end = true →
    alist_get (update_cache fs c) f.target.path = some f.mtime_end
  | g :: t, c, f, hnd, hf, hex => by
    have hnd' := List.nodup_cons.mp hnd
    rcases List.mem_cons.mp hf with hfg | hft
    · subst hfg
      simp only [update_cache, if_pos hex]
      have hnin : ∀ x ∈ t, x.target.path = f.target.path → x.exists_at_end = false := by
        intro x hx hxp
        have hmap : f.target.path ∈ t.map (fun g => g.target.path) :=
          hxp ▸ List.mem_map_of_mem (fun g => g.target.path) hx
        exact absurd hmap hnd'.1
      rw [update_cache_no_hit t _ f.target.path hnin]
      exact alist_get_set_self c f.target.path f.mtime_end
    · simp only [update_cache]
      exact update_cache_hit t _ f hnd'.2 hft hex

def c3_cfg : ScanConfig := ⟨10, [], [".xyz"]⟩

def c3_rules : Option RuleSet := some ⟨[⟨"a.yar", "rule a condition true", true⟩]⟩

def c3_file : WorldFile :=
  ⟨⟨"/tmp/blocked.xyz", ".xyz", true, true, 100⟩, 5, 5, true, MatchOutcome.ok []⟩

/-- C3 fails as stated: a file the eligibility filter rejects (here by
block-list) is never matched, yet it is in `files_to_scan`, so the
end-of-session loop still gives it a cache entry; entries are not restricted
to files that were actually scanned. -/
theorem c3_counterexample :
    is_file_scannable c3_cfg c3_file.target = false ∧
    alist_get (scan_path c3_cfg c3_rules "/tmp" [c3_file] [] true).2
      "/tmp/blocked.xyz" = some 5 := by
  decide

/-- C3 (amended): when `incremental` is set, the session's final cache has an
entry (with the end-of-session modification time) for exactly those
considered files — the survivors of the incremental check, eligible or not —
that still exist on disk at session end; every other path keeps its previous
cache value; with `incremental=false` the cache is untouched. -/
theorem c3_cache_update (cfg : ScanConfig) (rules : Option RuleSet) (root p : String)
    (walk : List WorldFile) (cache : Cache)
    (hnd : ((files_to_scan cache true walk).map (fun g => g.target.path)).Nodup) :
    (∀ f ∈ files_to_scan cache true walk, f.exists_at_end = true →
      alist_get (scan_path cfg rules root walk cache true).2 f.target.path =
        some f.mtime_end) ∧
    ((∀ f ∈ files_to_scan cache true walk, f.target.path = p →
        f.exists_at_end = false) →
      alist_get (scan_path cfg rules root walk cache true).2 p = alist_get cache p) ∧
    (scan_path cfg rules root walk cache false).2 = cache := by
  refine ⟨fun f hf hex => ?_, fun h => ?_, rfl⟩
  · exact update_cache_hit (files_to_scan cache true walk) cache f hnd hf hex
  · exact update_cache_no_hit (files_to_scan cache true walk) cache p h

def c3_wit_file : WorldFile :=
  ⟨⟨"/w/f.txt", ".txt", true, true, 100⟩, 4, 9, true, MatchOutcome.ok []⟩

/-- Witness for the amended C3: the surviving existing file gets its
end-of-session mtime; an untouched path keeps its old (absent) entry. -/
theorem c3_cache_update_witness :
    alist_get (scan_path c3_cfg c3_rules "/w" [c3_wit_file] [] true).2 "/w/f.txt" =
      some 9 ∧
    alist_get (scan_path c3_cfg c3_rules "/w" [c3_wit_file] [] true).2 "/other" =
      none ∧
    (scan_path c3_cfg c3_rules "/w" [c3_wit_file] [] false).2 = [] :=
  ⟨(c3_cache_update c3_cfg c3_rules "/w" "/w/f.txt" [c3_wit_file] [] (by decide)).1
      c3_wit_file (by decide) rfl,
   (c3_cache_update c3_cfg c3_rules "/w" "/other" [c3_wit_file] [] (by decide)).2.1
      (by decide),
   (c3_cache_update c3_cfg c3_rules "/w" "/other" [c3_wit_file] [] (by decide)).2.2⟩

/-! ### Claim C7: per-file matching errors -/

theorem scan_file_err (cfg : ScanConfig) (rules : Option RuleSet) (f : WorldFile)
    (e : String) (h : f.outcome = MatchOutcome.err e) :
    scan_file cfg rules f = [] := by
  cases hr : rules <;> simp [scan_file, hr, h]

theorem scan_file_ok_nil (cfg : ScanConfig) (rules : Option RuleSet) (f : WorldFile) :
    scan_file cfg rules { f with outcome := MatchOutcome.ok [] } = [] := by
  cases hr : rules <;> simp [scan_file, hr]

theorem update_cache_congr : ∀ (l1 l2 : List WorldFile) (c : Cache) (f g : WorldFile),
    f.target = g.target → f.exists_at_end = g.exists_at_end →
    f.mtime_end = g.mtime_end →
    update_cache (l1 ++ f :: l2) c = update_cache (l1 ++ g :: l2) c
  | [], l2, c, f, g, h1, h2, h3 => by
    simp only [List.nil_append, update_cache, h1, h2, h3]
  | e :: t, l2, c, f, g, h1, h2, h3 => by
    simp only [List.cons_append, update_cache]
    exact update_cache_congr t l2 _ f g h1 h2 h3

def c7_cfg : ScanConfig := ⟨10, [], []⟩

def c7_rules : Option RuleSet :=
  some ⟨[⟨"a.yar", "rule r1 condition true", true⟩]⟩

def c7_err_file : WorldFile :=
  ⟨⟨"/d/x.bin", ".bin", true, true, 10⟩, 1, 1, true, MatchOutcome.err "boom"⟩

def c7_ok_file : WorldFile :=
  ⟨⟨"/d/x.bin", ".bin", true, true, 10⟩, 1, 1, true, MatchOutcome.ok []⟩

def c7_other_file : WorldFile :=
  ⟨⟨"/d/y.bin", ".bin", true, true, 10⟩, 1, 1, true, MatchOutcome.ok ["r1"]⟩

/-- C7 fails as stated: the session result of a scan in which one file's
matching raised an exception is identical to the result of the same scan
with that file clean and matchless — the summary dictionary records no
per-file error list at all (errors are only logged).  The remaining file is
still processed and counted, so the no-abort half does hold. -/
theorem c7_counterexample :
    c7_err_file.outcome = MatchOutcome.err "boom" ∧
    scan_path c7_cfg c7_rules "/d" [c7_err_file, c7_other_file] [] false =
      scan_path c7_cfg c7_rules "/d" [c7_ok_file, c7_other_file] [] false ∧
    (scan_path c7_cfg c7_rules "/d" [c7_err_file, c7_other_file] []
      false).1.total_files_scanned = 2 ∧
    (scan_path c7_cfg c7_rules "/d" [c7_err_file, c7_other_file] []
      false).1.matches_found = ["r1"] := by
  decide

/-- C7 (amended): an exception while matching a file is swallowed inside the
worker: the file contributes no matches and the whole session — considered
count, match list, cache refresh — is exactly what it would be had the file
scanned cleanly with zero matches; every other file is processed as usual
and the summary is produced, but no per-file error reaches the session
result. -/
theorem c7_error_isolated (cfg : ScanConfig) (rules : Option RuleSet) (root : String)
    (cache : Cache) (inc : Bool) (pre post : List WorldFile) (f : WorldFile)
    (e : String) (h : f.outcome = MatchOutcome.err e) :
    scan_file cfg rules f = [] ∧
    scan_path cfg rules root (pre ++ f :: post) cache inc =
      scan_path cfg rules root
        (pre ++ { f with outcome := MatchOutcome.ok [] } :: post) cache inc := by
  refine ⟨scan_file_err cfg rules f e h, ?_⟩
  have hsf : scan_file cfg rules f = [] := scan_file_err cfg rules f e h
  have hsf' : scan_file cfg rules { f with outcome := MatchOutcome.ok [] } = [] :=
    scan_file_ok_nil cfg rules f
  have hkeep : inc_keep cache inc { f with outcome := MatchOutcome.ok [] } =
      inc_keep cache inc f := rfl
  have hup : update_cache
      (files_to_scan cache inc pre ++ f :: files_to_scan cache inc post) cache =
      update_cache (files_to_scan cache inc pre ++
        { f with outcome := MatchOutcome.ok [] } :: files_to_scan cache inc post)
        cache :=
    update_cache_congr _ _ cache f _ rfl rfl rfl
  simp only [scan_path, files_to_scan, List.filter_append, List.filter_cons, hkeep]
  cases hc : inc_keep cache inc f with
  | false => simp [hc]
  | true =>
    simp only [hc, if_true, List.map_append, List.map_cons, List.flatten_append,
      List.flatten_cons, hsf, hsf', List.length_append, List.length_cons,
      List.nil_append]
    rw [show (List.filter (inc_keep cache inc) pre ++
        f :: List.filter (inc_keep cache inc) post) =
        (files_to_scan cache inc pre ++ f :: files_to_scan cache inc post) from rfl,
      hup]
    rfl

/-- Witness for the amended C7 at a concrete two-file session. -/
theorem c7_error_isolated_witness :
    scan_file c7_cfg c7_rules c7_err_file = [] ∧
    scan_path c7_cfg c7_rules "/d" [c7_err_file, c7_other_file] [] false =
      scan_path c7_cfg c7_rules "/d"
        [{ c7_err_file with outcome := MatchOutcome.ok [] }, c7_other_file] [] false :=
  c7_error_isolated c7_cfg c7_rules "/d" [] false [] [c7_other_file] c7_err_file
    "boom" rfl

end Falcon
